import Mathlib

/-!
Verification of the Nessus plugin (`minion/plugins/nessus.py`): a shallow
embedding of the scan-orchestration state machine, the HTTP transport error
handling, and the CSV result transformer, together with theorems settling the
specification's claims about them.

Conventions of the embedding:
- Python exceptions (`KeyError`, `IndexError`, `ValueError`, `TypeError`) are
  modelled by `Option`/`Except` failure: any raised exception aborts the
  surrounding computation, which is exactly how `do_run` behaves (no handler
  exists anywhere in the plugin).
- Python `dict(...)` built from a list of key/value pairs is modelled by
  `dictLookup`, where a later pair overwrites an earlier pair with the same
  key (Python insertion semantics), hence lookup finds the last-seen pair.
- The external collaborators (the `requests` library, the `csv` module, the
  remote Nessus server, `BlockingPlugin.report_issue`/`report_finish`) are
  boundaries: server responses are supplied by an `Env` value, `csv.reader`
  output is taken as an already-parsed `List (List String)`, and the calls
  made against those boundaries are recorded in an explicit trace.
-/

set_option autoImplicit false

/-- Python `dict(pairs)[k]`: building a dict from a pair list lets later pairs
overwrite earlier ones with the same key, so lookup returns the value of the
last pair whose key is `k` (`none` models `KeyError`). -/
def dictLookup {α : Type} (pairs : List (String × α)) (k : String) : Option α :=
  (pairs.reverse.find? (fun p => p.1 == k)).map Prod.snd

/-! ## Result transformer (`minion_severity`, `create_issue`, `parse_csv_data`) -/

/-- `minion_severity`: `if risk == 'None': return 'Info' else: return risk`. -/
def minion_severity (risk : String) : String :=
  if risk == "None" then "Info" else risk

/-- One entry of `plugin_info['attributes']`. -/
structure PluginAttr where
  attribute_name : String
  attribute_value : String
deriving DecidableEq, Repr, Inhabited

/-- The plugin-metadata payload returned by `GET /plugins/plugin/{id}`;
the code only reads its `attributes` list. -/
structure PluginInfo where
  attributes : List PluginAttr
deriving DecidableEq, Repr, Inhabited

/-- `_get_plugin_name`: starts with `name = None` and overwrites it with
`attribute['attribute_value']` for every attribute named `plugin_name`,
so the last matching attribute wins. -/
def _get_plugin_name (plugin_info : PluginInfo) : Option String :=
  plugin_info.attributes.foldl
    (fun name attr =>
      if attr.attribute_name == "plugin_name" then some attr.attribute_value
      else name)
    none

/-- `_build_description`:
`plugin_name + ' ' + row[8] + ' ' + row[9] + ' ' + row[10] + ' ' + row[12]`.
`none` models the `IndexError` a too-short row raises. -/
def _build_description (row : List String) (plugin_name : String) : Option String := do
  let s8 ← row[8]?
  let s9 ← row[9]?
  let s10 ← row[10]?
  let s12 ← row[12]?
  some (plugin_name ++ " " ++ s8 ++ " " ++ s9 ++ " " ++ s10 ++ " " ++ s12)

/-- One `{"URL": ...}` record. -/
structure URLRec where
  URL : String
deriving DecidableEq, Repr, Inhabited

/-- The normalized issue record built by `create_issue`. -/
structure Issue where
  Severity : String
  Summary : String
  Description : String
  URLs : List URLRec
  Ports : List String
deriving DecidableEq, Repr, Inhabited

/-- `create_issue(row, plugin_info)`: severity from `row[3]`, summary from
`row[8]`, description from `_build_description`, one URL `row[4]:row[6]`,
port list `[row[6]]`.  `none` models the exceptions of the real code: an
`IndexError` from a short row, or the `TypeError` raised by
`_build_description` when `_get_plugin_name` returned `None`. -/
def create_issue (row : List String) (plugin_info : PluginInfo) : Option Issue := do
  let plugin_name ← _get_plugin_name plugin_info
  let r3 ← row[3]?
  let r8 ← row[8]?
  let desc ← _build_description row plugin_name
  let r4 ← row[4]?
  let r6 ← row[6]?
  some { Severity := minion_severity r3
         Summary := r8
         Description := desc
         URLs := [{ URL := r4 ++ ":" ++ r6 }]
         Ports := [r6] }

/-- Observable calls `parse_csv_data` makes on the reporting sink. -/
inductive Event where
  | reportIssue (issue : Issue)
  | reportFinish
deriving DecidableEq, Repr

/-- State threaded through the `for row in csv.reader(rows)` loop of
`parse_csv_data`: the `plugins` cache dict (insertion order), the plugin ids
fetched from the network (`get_plugin_info` calls, in order), the events sent
to the reporting sink, and the local `issues` list. -/
structure ParseState where
  plugins : List (String × PluginInfo)
  fetches : List String
  events : List Event
  issues : List Issue
deriving DecidableEq, Repr

/-- The loop body of `parse_csv_data` over the remaining rows.  `db` is the
remote plugin database answering `get_plugin_info`.  A row whose first column
is `'Plugin ID'` is skipped; otherwise the cache is consulted, a miss fetches
and stores `db row[0]`, and `create_issue` feeds `report_issue`.  After the
rows, `report_finish` runs.  `none` models an uncaught exception. -/
def parse_go (db : String → PluginInfo) :
    List (List String) → ParseState → Option ParseState
  | [], st => some { st with events := st.events ++ [Event.reportFinish] }
  | row :: rest, st =>
    match row[0]? with
    | none => none
    | some r0 =>
      if r0 == "Plugin ID" then parse_go db rest st
      else
        match dictLookup st.plugins r0 with
        | some info =>
          match create_issue row info with
          | none => none
          | some issue =>
            parse_go db rest { st with events := st.events ++ [Event.reportIssue issue] }
        | none =>
          let info := db r0
          match create_issue row info with
          | none => none
          | some issue =>
            parse_go db rest
              { plugins := st.plugins ++ [(r0, info)]
                fetches := st.fetches ++ [r0]
                events := st.events ++ [Event.reportIssue issue]
                issues := st.issues }

/-- `parse_csv_data(data)`: the rows are `csv.reader`'s parse of the
downloaded body (the `csv` module is an external boundary, so the model takes
the parsed rows).  Starts with an empty cache and an empty `issues` list,
runs the loop, and returns the final state together with the value the Python
function returns, namely its `issues` variable. -/
def parse_csv_data (db : String → PluginInfo) (rows : List (List String)) :
    Option (ParseState × List Issue) :=
  (parse_go db rows ⟨[], [], [], []⟩).map (fun st => (st, st.issues))

/-- A row is well formed for a given plugin database when the code can process
it without an exception: it has a first column, and it is either the header
row or `create_issue` succeeds on it with its plugin's metadata. -/
def rowOk (db : String → PluginInfo) (row : List String) : Bool :=
  match row[0]? with
  | none => false
  | some r0 => r0 == "Plugin ID" || (create_issue row (db r0)).isSome

/-- The issue a data row produces, looked up directly against the plugin
database (the cache is transparent: it only ever stores `db` answers). -/
def rowIssue (db : String → PluginInfo) (row : List String) : Option Issue :=
  row[0]?.bind (fun r0 => create_issue row (db r0))

/-- The data rows of a body: every row except the `'Plugin ID'` header rows. -/
def dataRows (rows : List (List String)) : List (List String) :=
  rows.filter (fun row => !(row[0]? == some "Plugin ID"))

/-- The plugin ids of the data rows, in row order, with repetitions. -/
def dataIds (rows : List (List String)) : List String :=
  rows.filterMap (fun row =>
    match row[0]? with
    | none => none
    | some r0 => if r0 == "Plugin ID" then none else some r0)

/-- First-occurrence deduplication: the fetch order the cache discipline
produces, one fetch per distinct id at its first data-row occurrence. -/
def firstDedup (seen : List String) : List String → List String
  | [] => []
  | x :: xs =>
    if seen.contains x then firstDedup seen xs
    else x :: firstDedup (seen ++ [x]) xs

/-- The reporting-sink events one transform pass produces for the data rows:
one issue per data row, in row order. -/
def issueEvents (db : String → PluginInfo) (rows : List (List String)) : List Event :=
  (dataRows rows).map (fun row => Event.reportIssue ((rowIssue db row).getD default))

/-! ## Transport (`connect`) -/

/-- A JSON value, as far as the plugin inspects one. -/
inductive Jso where
  | null
  | str (s : String)
  | num (n : Int)
  | boolean (b : Bool)
  | obj (fields : List (String × Jso))
  | arr (elems : List Jso)

/-- Python `e[k]` on a decoded JSON value: succeeds only on an object that has
the key (last duplicate wins, as in a Python dict). -/
def jsoGet (e : Jso) (k : String) : Option Jso :=
  match e with
  | Jso.obj fields => dictLookup fields k
  | _ => none

/-- The Python exceptions `connect` can raise. -/
inductive PyError where
  | valueError
  | keyError (key : String)
  | typeError
deriving DecidableEq, Repr

/-- An HTTP response as the `requests` library hands it to `connect`:
its status code, its raw body (`r.content`), and the result of `r.json()` —
`none` when the body is not parseable as JSON (a raised `ValueError`). -/
structure Resp where
  status_code : Nat
  content : String
  json : Option Jso

/-- What `connect` hands back to its caller: raw bytes for a download or a
DELETE, decoded JSON otherwise. -/
inductive ConnectResult where
  | raw (content : String)
  | parsed (j : Jso)

/-- `'download' in resource`: substring containment on the resource path. -/
def strHasSub (needle hay : List Char) : Bool :=
  match hay with
  | [] => needle.isEmpty
  | _ :: t => needle.isPrefixOf hay || strHasSub needle t

/-- `connect(method, resource, data)` given the response `r` the server sent:
if `r.status_code != 200` it decodes the body (raising `ValueError` if not
JSON), reads `e['error']` (raising `KeyError` if absent), concatenates it into
a log line (raising `TypeError` if not a string) — and then falls through.
It returns `r.content` when the resource contains `'download'` or the method
is `DELETE`, and `r.json()` otherwise.  The returned pair is the list of
logged error lines and the value handed to the caller. -/
def connect (method resource : String) (r : Resp) :
    Except PyError (List String × ConnectResult) := do
  let logs ←
    if r.status_code ≠ 200 then
      match r.json with
      | none => Except.error PyError.valueError
      | some e =>
        match jsoGet e "error" with
        | none => Except.error (PyError.keyError "error")
        | some (Jso.str msg) => pure ["Unexpected response from Nessus" ++ msg]
        | some _ => Except.error PyError.typeError
    else pure ([] : List String)
  if strHasSub "download".toList resource.toList || method == "DELETE" then
    pure (logs, ConnectResult.raw r.content)
  else
    match r.json with
    | none => Except.error PyError.valueError
    | some j => pure (logs, ConnectResult.parsed j)

/-! ## Scan orchestrator (`do_run` and the helpers it calls) -/

/-- One policy template from `GET /editor/policy/templates`. -/
structure Policy where
  title : String
  uuid : String
deriving DecidableEq, Repr

/-- One entry of the scan's `history` list from `GET /scans/{id}`. -/
structure HistEntry where
  uuid : String
  history_id : Nat
deriving DecidableEq, Repr

/-- `get_policies`: `dict((p['title'], p['uuid']) for p in data['templates'])`,
as the pair list the dict is built from (lookup via `dictLookup`). -/
def get_policies (templates : List Policy) : List (String × String) :=
  templates.map (fun p => (p.title, p.uuid))

/-- `get_history_ids`: `dict((h['uuid'], h['history_id']) for h in
data['history'])`, as the pair list the dict is built from. -/
def get_history_ids (history : List HistEntry) : List (String × Nat) :=
  history.map (fun h => (h.uuid, h.history_id))

/-- The remote calls and sleeps `do_run` performs, in order. -/
inductive Call where
  | login
  | getPolicies
  | addScan (name desc targets pid : String)
  | launchScan (sid : Nat)
  | getHistory (sid : Nat)
  | statusQuery (sid hid : Nat)
  | sleepSecs (n : Nat)
  | exportRequest (sid hid : Nat)
  | exportStatusQuery (sid fid : Nat)
  | download (sid fid : Nat)
deriving DecidableEq, Repr

/-- The configuration values `do_run` reads. -/
structure Config where
  policy : String
  target : String
  scan_name : String
  scan_description : String
deriving DecidableEq, Repr

/-- The remote server's behavior for one run, supplied as an oracle: the
policy templates, the ids the create/launch/export calls return, the history
listing, and the successive answers to the status and export-status polls.
The poll answer lists are finite prefixes of the server's answer stream: a
run whose loop consumes the whole prefix without its exit status is still
polling (`RunOutcome.polling`), which models the unbounded loop. -/
structure Env where
  templates : List Policy
  scan_id : Nat
  scan_uuid : String
  history : List HistEntry
  statuses : List String
  file_id : Nat
  export_statuses : List String
deriving Repr

/-- How far `do_run` got on the supplied answers. -/
inductive RunOutcome where
  | ok (csvBody : String)
  | keyError (key : String)
  | polling
deriving DecidableEq, Repr

/-- `while self.status(scan_id, history_id) != 'completed': time.sleep(5)`
run against a finite prefix of poll answers: returns the calls made and
whether the loop exited within the prefix. -/
def status_poll_loop (sid hid : Nat) : List String → List Call × Bool
  | [] => ([], false)
  | s :: rest =>
    if s == "completed" then ([Call.statusQuery sid hid], true)
    else
      let t := status_poll_loop sid hid rest
      (Call.statusQuery sid hid :: Call.sleepSecs 5 :: t.1, t.2)

/-- `while self.export_status(sid, fid) is False: time.sleep(5)` inside
`export`, where `export_status` returns `data['status'] == 'ready'`. -/
def export_poll_loop (sid fid : Nat) : List String → List Call × Bool
  | [] => ([], false)
  | s :: rest =>
    if s == "ready" then ([Call.exportStatusQuery sid fid], true)
    else
      let t := export_poll_loop sid fid rest
      (Call.exportStatusQuery sid fid :: Call.sleepSecs 5 :: t.1, t.2)

/-- `do_run` up to the download (the handoff to `parse_csv_data`, which is
modelled separately): login, fetch policies, resolve the configured policy
title (`policies[policy_name]`, `KeyError` on a miss), create and launch the
scan, resolve the launch uuid against the history ids (`KeyError` on a miss),
poll status until `'completed'`, request the export, poll export status until
ready, download.  Returns the call trace and the outcome. -/
def do_run (cfg : Config) (env : Env) (downloadBody : String) : List Call × RunOutcome :=
  match dictLookup (get_policies env.templates) cfg.policy with
  | none => ([Call.login, Call.getPolicies], RunOutcome.keyError cfg.policy)
  | some policy_id =>
    match dictLookup (get_history_ids env.history) env.scan_uuid with
    | none =>
      ([Call.login, Call.getPolicies,
        Call.addScan cfg.scan_name cfg.scan_description cfg.target policy_id,
        Call.launchScan env.scan_id, Call.getHistory env.scan_id],
       RunOutcome.keyError env.scan_uuid)
    | some history_id =>
      if (status_poll_loop env.scan_id history_id env.statuses).2 = false then
        ([Call.login, Call.getPolicies,
          Call.addScan cfg.scan_name cfg.scan_description cfg.target policy_id,
          Call.launchScan env.scan_id, Call.getHistory env.scan_id]
         ++ (status_poll_loop env.scan_id history_id env.statuses).1,
         RunOutcome.polling)
      else if (export_poll_loop env.scan_id env.file_id env.export_statuses).2 = false then
        ([Call.login, Call.getPolicies,
          Call.addScan cfg.scan_name cfg.scan_description cfg.target policy_id,
          Call.launchScan env.scan_id, Call.getHistory env.scan_id]
         ++ (status_poll_loop env.scan_id history_id env.statuses).1
         ++ [Call.exportRequest env.scan_id history_id]
         ++ (export_poll_loop env.scan_id env.file_id env.export_statuses).1,
         RunOutcome.polling)
      else
        ([Call.login, Call.getPolicies,
          Call.addScan cfg.scan_name cfg.scan_description cfg.target policy_id,
          Call.launchScan env.scan_id, Call.getHistory env.scan_id]
         ++ (status_poll_loop env.scan_id history_id env.statuses).1
         ++ [Call.exportRequest env.scan_id history_id]
         ++ (export_poll_loop env.scan_id env.file_id env.export_statuses).1
         ++ [Call.download env.scan_id env.file_id],
         RunOutcome.ok downloadBody)

/-- Sample data for concrete witnesses: a plugin database whose every entry
has plugin name `"P"`. -/
def dbSample : String → PluginInfo := fun _ => ⟨[⟨"plugin_name", "P"⟩]⟩

/-- Sample data: the 13-column header row. -/
def headerRowSample : List String :=
  ["Plugin ID", "CVE", "CVSS", "Risk", "Host", "Protocol", "Port", "Name",
   "Synopsis", "Description", "Solution", "See Also", "Plugin Output"]

/-- Sample data: a header row plus two data rows sharing plugin id `"123"`. -/
def rowsSample : List (List String) :=
  [headerRowSample,
   ["123", "CVE-1", "5.0", "None", "10.0.1.1", "tcp", "88", "N",
    "Syn", "Desc", "Sol", "SA", "Out"],
   ["123", "CVE-1", "5.0", "Low", "10.0.1.2", "tcp", "80", "N",
    "Syn2", "Desc2", "Sol2", "SA2", "Out2"]]

/-- A 500 response whose body is the JSON object `{"error": "boom"}`. -/
def respServerError : Resp :=
  ⟨500, "\x7b\"error\": \"boom\"\x7d", some (Jso.obj [("error", Jso.str "boom")])⟩

/-- A 500 response whose body is not parseable as JSON. -/
def respGarbage : Resp := ⟨500, "<html>oops</html>", none⟩

/-- Sample configuration selecting policy title `"A"`. -/
def cfgSample : Config := ⟨"A", "10.0.0.1", "nightly", "d"⟩

/-- Sample server behavior: policy `"A"` resolves, the launch uuid `"run-1"`
appears in the history with history id 7, two non-terminal status answers
(`"aborted"`, `"canceled"`) precede `"completed"`, and one not-ready export
answer precedes `"ready"`. -/
def envSample : Env :=
  ⟨[⟨"A", "u1"⟩, ⟨"B", "u2"⟩], 42, "run-1", [⟨"run-1", 7⟩],
   ["aborted", "canceled", "completed"], 9, ["loading", "ready"]⟩

/-- Sample server behavior whose catalog lacks the configured title `"A"`. -/
def envNoPolicy : Env :=
  ⟨[⟨"B", "u2"⟩], 42, "run-1", [⟨"run-1", 7⟩], ["completed"], 9, ["ready"]⟩

/-- Sample server behavior whose history lacks the launch uuid `"run-1"`. -/
def envNoHistory : Env :=
  ⟨[⟨"A", "u1"⟩], 42, "run-1", [⟨"run-0", 3⟩], ["completed"], 9, ["ready"]⟩

/-! ## Helper lemmas -/

/-- When a key/value pair is in the dict's pair list and every pair with that
key carries that value, lookup returns the value. -/
theorem dictLookup_of_mem {α : Type} (pairs : List (String × α)) (k : String) (v : α)
    (hmem : (k, v) ∈ pairs)
    (huniq : ∀ p ∈ pairs, p.1 = k → p.2 = v) :
    dictLookup pairs k = some v := by
  unfold dictLookup
  cases hf : pairs.reverse.find? (fun p => p.1 == k) with
  | none =>
    rw [List.find?_eq_none] at hf
    have := hf (k, v) (List.mem_reverse.mpr hmem)
    simp at this
  | some p =>
    have h1 : p.1 = k := by simpa using List.find?_some hf
    have h2 : p ∈ pairs := List.mem_reverse.mp (List.mem_of_find?_eq_some hf)
    simp [huniq p h2 h1]

/-- A key carried by no pair looks up to `none` (a `KeyError` at use sites). -/
theorem dictLookup_eq_none {α : Type} (pairs : List (String × α)) (k : String)
    (habs : ∀ p ∈ pairs, p.1 ≠ k) :
    dictLookup pairs k = none := by
  unfold dictLookup
  rw [List.find?_eq_none.mpr]
  · rfl
  · intro p hp
    simpa using habs p (List.mem_reverse.mp hp)

/-- A successful lookup means the key is among the dict's keys. -/
theorem mem_keys_of_dictLookup {α : Type} (pairs : List (String × α)) (k : String) (v : α)
    (h : dictLookup pairs k = some v) : k ∈ pairs.map Prod.fst := by
  unfold dictLookup at h
  cases hf : pairs.reverse.find? (fun p => p.1 == k) with
  | none => rw [hf] at h; simp at h
  | some p =>
    have h1 : p.1 = k := by simpa using List.find?_some hf
    have h2 : p ∈ pairs := List.mem_reverse.mp (List.mem_of_find?_eq_some hf)
    exact h1 ▸ List.mem_map_of_mem Prod.fst h2

/-- A failed lookup means the key is among none of the dict's keys. -/
theorem not_mem_keys_of_dictLookup {α : Type} (pairs : List (String × α)) (k : String)
    (h : dictLookup pairs k = none) : k ∉ pairs.map Prod.fst := by
  intro hk
  rcases List.mem_map.mp hk with ⟨p, hp, hpk⟩
  unfold dictLookup at h
  rw [Option.map_eq_none'] at h
  rw [List.find?_eq_none] at h
  have := h p (List.mem_reverse.mpr hp)
  simp [hpk] at this

/-- A cached value is always the database's answer for its key. -/
theorem dictLookup_val {α : Type} (pairs : List (String × α)) (k : String) (v : α)
    (f : String → α)
    (hc : ∀ kv ∈ pairs, kv.2 = f kv.1)
    (h : dictLookup pairs k = some v) : v = f k := by
  unfold dictLookup at h
  cases hf : pairs.reverse.find? (fun p => p.1 == k) with
  | none => rw [hf] at h; simp at h
  | some p =>
    rw [hf] at h
    have h1 : p.1 = k := by simpa using List.find?_some hf
    have h2 : p ∈ pairs := List.mem_reverse.mp (List.mem_of_find?_eq_some hf)
    have h3 : p.2 = f p.1 := hc p h2
    simp at h
    rw [← h, h3, h1]

/-- `parse_go` never touches the `issues` list of its state. -/
theorem parse_go_issues (db : String → PluginInfo) :
    ∀ (rows : List (List String)) (st st' : ParseState),
      parse_go db rows st = some st' → st'.issues = st.issues := by
  intro rows
  induction rows with
  | nil =>
    intro st st' h
    simp only [parse_go, Option.some.injEq] at h
    rw [← h]
  | cons row rest ih =>
    intro st st' h
    simp only [parse_go] at h
    split at h
    · exact absurd h (by simp)
    · split at h
      · exact ih st st' h
      · split at h
        · split at h
          · exact absurd h (by simp)
          · exact (ih _ st' h).trans rfl
        · split at h
          · exact absurd h (by simp)
          · exact (ih _ st' h).trans rfl

/-- Claim C3: the produced severity is `"Info"` when the row's risk field is
exactly the string `"None"`, and is the risk field verbatim otherwise. -/
theorem minion_severity_spec (risk : String) (hrisk : risk ≠ "None") :
    minion_severity "None" = "Info" ∧ minion_severity risk = risk := by
  refine ⟨rfl, ?_⟩
  simp [minion_severity, hrisk]

/-- Witness for C3 at the concrete risk value `"Low"`. -/
theorem minion_severity_spec_witness :
    minion_severity "None" = "Info" ∧ minion_severity "Low" = "Low" :=
  minion_severity_spec "Low" (by decide)

/-- Claim C7: on a full-width row whose plugin metadata yields a name, the
issue's summary is column 8, its description is the plugin name, synopsis,
description, solution and plugin-output columns joined by single spaces
(column 11, see-also, is not used), its one URL is `host:port` from columns 4
and 6, and its port list is exactly the column-6 value. -/
theorem create_issue_fields (row : List String) (info : PluginInfo) (name : String)
    (c3 c4 c6 c8 c9 c10 c12 : String)
    (hname : _get_plugin_name info = some name)
    (h3 : row[3]? = some c3) (h4 : row[4]? = some c4) (h6 : row[6]? = some c6)
    (h8 : row[8]? = some c8) (h9 : row[9]? = some c9) (h10 : row[10]? = some c10)
    (h12 : row[12]? = some c12) :
    create_issue row info = some
      { Severity := minion_severity c3
        Summary := c8
        Description := name ++ " " ++ c8 ++ " " ++ c9 ++ " " ++ c10 ++ " " ++ c12
        URLs := [{ URL := c4 ++ ":" ++ c6 }]
        Ports := [c6] } := by
  simp [create_issue, _build_description, hname, h3, h4, h6, h8, h9, h10, h12]

/-- Witness for C7 on a concrete 13-column row. -/
theorem create_issue_fields_witness :
    create_issue
        ["123", "CVE-1", "5.0", "None", "10.0.1.1", "tcp", "88", "N",
         "Syn", "Desc", "Sol", "SeeAlso", "Out"]
        ⟨[⟨"plugin_name", "P"⟩]⟩ = some
      { Severity := minion_severity "None"
        Summary := "Syn"
        Description := "P" ++ " " ++ "Syn" ++ " " ++ "Desc" ++ " " ++ "Sol" ++ " " ++ "Out"
        URLs := [{ URL := "10.0.1.1" ++ ":" ++ "88" }]
        Ports := ["88"] } :=
  create_issue_fields
    ["123", "CVE-1", "5.0", "None", "10.0.1.1", "tcp", "88", "N",
     "Syn", "Desc", "Sol", "SeeAlso", "Out"]
    ⟨[⟨"plugin_name", "P"⟩]⟩ "P" "None" "10.0.1.1" "88" "Syn" "Desc" "Sol" "Out"
    rfl rfl rfl rfl rfl rfl rfl rfl

/-- Claim C9: when several catalog entries share a title, the constructed
title-to-uuid dict maps the title to the uuid of the last-seen entry bearing
it; any earlier entries (in `ts1`, which may repeat the title) are shadowed. -/
theorem duplicate_title_last_wins (ts1 ts2 : List Policy) (p : Policy)
    (habs : ∀ q ∈ ts2, q.title ≠ p.title) :
    dictLookup (get_policies (ts1 ++ p :: ts2)) p.title = some p.uuid := by
  unfold dictLookup get_policies
  rw [List.map_append, List.map_cons, List.reverse_append, List.reverse_cons]
  rw [List.find?_append, List.find?_append]
  have h2 : (List.map (fun q => (q.title, q.uuid)) ts2).reverse.find?
      (fun pr => pr.1 == p.title) = none := by
    rw [List.find?_eq_none]
    intro x hx
    rcases List.mem_map.mp (List.mem_reverse.mp hx) with ⟨q, hq, rfl⟩
    simpa using habs q hq
  rw [h2]
  simp

/-- Witness for C9: `"A"` appears with uuid `u1` early and uuid `u3` last;
the lookup returns `u3`. -/
theorem duplicate_title_last_wins_witness :
    dictLookup (get_policies ([⟨"A", "u1"⟩, ⟨"B", "u2"⟩] ++ ⟨"A", "u3"⟩ :: [⟨"C", "u4"⟩]))
      "A" = some "u3" :=
  duplicate_title_last_wins [⟨"A", "u1"⟩, ⟨"B", "u2"⟩] [⟨"C", "u4"⟩] ⟨"A", "u3"⟩ (by decide)

/-- Claim C10: whatever the input, `parse_csv_data` hands back the empty list
as its return value — the `issues` accumulator is never appended to, so
issues reach the caller only through the reporting sink. -/
theorem parse_csv_data_returns_empty (db : String → PluginInfo)
    (rows : List (List String)) :
    ((parse_csv_data db rows).map Prod.snd).getD [] = [] := by
  unfold parse_csv_data
  cases hp : parse_go db rows ⟨[], [], [], []⟩ with
  | none => rfl
  | some st =>
    have := parse_go_issues db rows ⟨[], [], [], []⟩ st hp
    simp [this]


/-- Counterexample to claim C1: on a non-success (500) response carrying a
server error message, `connect` does not surface an error to its caller — it
returns the parsed response body as a success value (the caller proceeds with
the data), having merely logged the message. -/
theorem connect_no_error_surfaced :
    respServerError.status_code ≠ 200 ∧
      connect "POST" "/scans" respServerError =
        Except.ok (["Unexpected response from Nessusboom"],
          ConnectResult.parsed (Jso.obj [("error", Jso.str "boom")])) :=
  ⟨by decide, rfl⟩

/-- Claim C1 amended: on a non-success status code whose body parses to a
JSON object with a string `error` field, `connect` logs
`'Unexpected response from Nessus'` plus the server's message and then
returns the response to its caller as if the request had succeeded (raw
content for a download resource or a DELETE, parsed JSON otherwise) — the
caller proceeds past the failed request; when the body is not parseable as
JSON, the attempt to read the message raises `ValueError` (there is no
generic fallback message), aborting the caller. -/
theorem connect_error_behavior (method resource : String) (r bad : Resp)
    (e : Jso) (msg : String)
    (hst : r.status_code ≠ 200)
    (hj : r.json = some e)
    (herr : jsoGet e "error" = some (Jso.str msg))
    (hbst : bad.status_code ≠ 200)
    (hbj : bad.json = none) :
    connect method resource r =
      (if strHasSub "download".toList resource.toList || method == "DELETE" then
        Except.ok (["Unexpected response from Nessus" ++ msg], ConnectResult.raw r.content)
      else
        Except.ok (["Unexpected response from Nessus" ++ msg], ConnectResult.parsed e))
    ∧ connect method resource bad = Except.error PyError.valueError := by
  constructor
  · unfold connect
    rw [if_pos hst, hj]
    simp only [herr]
    rfl
  · unfold connect
    rw [if_pos hbst, hbj]
    rfl

/-- Witness for the amended C1 at the concrete responses above. -/
theorem connect_error_behavior_witness :
    connect "POST" "/scans" respServerError =
      (if strHasSub "download".toList "/scans".toList || "POST" == "DELETE" then
        Except.ok (["Unexpected response from Nessusboom"],
          ConnectResult.raw respServerError.content)
      else
        Except.ok (["Unexpected response from Nessusboom"],
          ConnectResult.parsed (Jso.obj [("error", Jso.str "boom")])))
    ∧ connect "POST" "/scans" respGarbage = Except.error PyError.valueError :=
  connect_error_behavior "POST" "/scans" respServerError respGarbage
    (Jso.obj [("error", Jso.str "boom")]) "boom" (by decide) rfl rfl (by decide) rfl

/-- `firstDedup` produces no duplicates and nothing already seen. -/
theorem firstDedup_spec : ∀ (xs seen : List String),
    (firstDedup seen xs).Nodup ∧ ∀ x ∈ firstDedup seen xs, x ∉ seen := by
  intro xs
  induction xs with
  | nil => intro seen; simp [firstDedup]
  | cons x xs ih =>
    intro seen
    by_cases hx : x ∈ seen
    · simp only [firstDedup]
      rw [if_pos (by simp [hx])]
      exact ih seen
    · simp only [firstDedup]
      rw [if_neg (by simp [hx])]
      obtain ⟨hnd, hns⟩ := ih (seen ++ [x])
      refine ⟨List.nodup_cons.mpr ⟨?_, hnd⟩, ?_⟩
      · intro hmem
        have := hns x hmem
        simp at this
      · intro y hy
        rcases List.mem_cons.mp hy with rfl | hy'
        · exact hx
        · intro hyseen
          exact hns y hy' (List.mem_append.mpr (Or.inl hyseen))

/-- `firstDedup` keeps exactly the distinct unseen elements. -/
theorem firstDedup_toFinset : ∀ (xs seen : List String),
    (firstDedup seen xs).toFinset = xs.toFinset \ seen.toFinset := by
  intro xs
  induction xs with
  | nil => intro seen; simp [firstDedup]
  | cons x xs ih =>
    intro seen
    by_cases hx : x ∈ seen
    · simp only [firstDedup]
      rw [if_pos (by simp [hx])]
      rw [ih seen, List.toFinset_cons]
      rw [Finset.insert_sdiff_of_mem _ (List.mem_toFinset.mpr hx)]
    · simp only [firstDedup]
      rw [if_neg (by simp [hx])]
      rw [List.toFinset_cons, List.toFinset_cons, ih (seen ++ [x])]
      ext a
      by_cases ha : a = x <;> simp [ha, hx]

/-- The single induction behind claims C4, C8 and C10: running the transform
loop from any state whose cache only stores database answers appends, to the
events, one issue per data row in row order and then the finish signal; to
the fetches, the first-occurrence deduplication of the data rows' plugin ids
against the cached keys; and to the cache, the corresponding entries. -/
theorem parse_go_spec (db : String → PluginInfo) :
    ∀ (rows : List (List String)) (st : ParseState),
      (∀ kv ∈ st.plugins, kv.2 = db kv.1) →
      (∀ row ∈ rows, rowOk db row = true) →
      parse_go db rows st = some
        { plugins := st.plugins ++
            (firstDedup (st.plugins.map Prod.fst) (dataIds rows)).map (fun i => (i, db i))
          fetches := st.fetches ++ firstDedup (st.plugins.map Prod.fst) (dataIds rows)
          events := st.events ++ issueEvents db rows ++ [Event.reportFinish]
          issues := st.issues } := by
  intro rows
  induction rows with
  | nil =>
    intro st hc hwf
    simp [parse_go, dataIds, issueEvents, dataRows, firstDedup]
  | cons row rest ih =>
    intro st hc hwf
    have hrow := hwf row (List.mem_cons_self row rest)
    have hwfr : ∀ r ∈ rest, rowOk db r = true := fun r hr => hwf r (List.mem_cons_of_mem row hr)
    simp only [parse_go]
    cases h0 : row[0]? with
    | none => simp [rowOk, h0] at hrow
    | some r0 =>
      simp only [h0]
      by_cases hhdr : r0 = "Plugin ID"
      · rw [if_pos (by simp [hhdr])]
        rw [ih st hc hwfr]
        have hdi : dataIds (row :: rest) = dataIds rest := by
          simp [dataIds, h0, hhdr]
        have hie : issueEvents db (row :: rest) = issueEvents db rest := by
          simp [issueEvents, dataRows, h0, hhdr]
        rw [hdi, hie]
      · rw [if_neg (by simp [hhdr])]
        have hci : (create_issue row (db r0)).isSome = true := by
          simp [rowOk, h0, hhdr] at hrow
          exact hrow
        obtain ⟨issue, hiss⟩ := Option.isSome_iff_exists.mp hci
        have hdi : dataIds (row :: rest) = r0 :: dataIds rest := by
          simp [dataIds, h0, hhdr]
        have hie : issueEvents db (row :: rest) =
            Event.reportIssue issue :: issueEvents db rest := by
          simp [issueEvents, dataRows, rowIssue, h0, hhdr, hiss]
        cases hl : dictLookup st.plugins r0 with
        | some info =>
          have hinfo : info = db r0 := dictLookup_val st.plugins r0 info db hc hl
          have hmemk : r0 ∈ st.plugins.map Prod.fst := mem_keys_of_dictLookup _ _ _ hl
          simp only [hl, hinfo, hiss]
          rw [ih { st with events := st.events ++ [Event.reportIssue issue] } hc hwfr]
          rw [hdi, hie]
          simp [firstDedup, hmemk]
        | none =>
          have hnmem : r0 ∉ st.plugins.map Prod.fst := not_mem_keys_of_dictLookup _ _ hl
          have hc' : ∀ kv ∈ st.plugins ++ [(r0, db r0)], kv.2 = db kv.1 := by
            intro kv hkv
            rcases List.mem_append.mp hkv with hmem | hmem
            · exact hc kv hmem
            · simp at hmem
              rw [hmem]
          simp only [hl, hiss]
          rw [ih { plugins := st.plugins ++ [(r0, db r0)]
                   fetches := st.fetches ++ [r0]
                   events := st.events ++ [Event.reportIssue issue]
                   issues := st.issues } hc' hwfr]
          rw [hdi, hie]
          simp [firstDedup, hnmem]

/-- Claim C4: on a body whose rows the code can process, the transform skips
every row whose first column is `'Plugin ID'`, reports to the sink exactly
one issue per remaining data row — no deduplication, one event per row — in
source row order, and signals finish exactly once, after the last issue. -/
theorem parse_csv_data_events (db : String → PluginInfo) (rows : List (List String))
    (hwf : ∀ row ∈ rows, rowOk db row = true) :
    (parse_csv_data db rows).map (fun p => (p.1.events, p.2)) =
      some ((dataRows rows).map
          (fun row => Event.reportIssue ((rowIssue db row).getD default))
          ++ [Event.reportFinish], []) := by
  unfold parse_csv_data
  rw [parse_go_spec db rows ⟨[], [], [], []⟩ (by simp) hwf]
  simp [issueEvents]

/-- Witness for C4 on the sample body (header plus two data rows). -/
theorem parse_csv_data_events_witness :
    (parse_csv_data dbSample rowsSample).map (fun p => (p.1.events, p.2)) =
      some ((dataRows rowsSample).map
          (fun row => Event.reportIssue ((rowIssue dbSample row).getD default))
          ++ [Event.reportFinish], []) :=
  parse_csv_data_events dbSample rowsSample (by decide)

/-- Claim C8: within one transform pass the plugin-metadata fetches are the
first occurrences of the data rows' plugin ids — each distinct id is fetched
at most once (the cache is consulted before any fetch), every data-row id is
fetched, and the pass still reports one issue per row in row order. -/
theorem plugin_fetch_once (db : String → PluginInfo) (rows : List (List String))
    (hwf : ∀ row ∈ rows, rowOk db row = true) :
    (parse_csv_data db rows).map (fun p => p.1.fetches) =
        some (firstDedup [] (dataIds rows))
    ∧ (firstDedup [] (dataIds rows)).Nodup
    ∧ (firstDedup [] (dataIds rows)).toFinset = (dataIds rows).toFinset
    ∧ (parse_csv_data db rows).map (fun p => p.1.events) =
        some ((dataRows rows).map
            (fun row => Event.reportIssue ((rowIssue db row).getD default))
            ++ [Event.reportFinish]) := by
  refine ⟨?_, (firstDedup_spec (dataIds rows) []).1, ?_, ?_⟩
  · unfold parse_csv_data
    rw [parse_go_spec db rows ⟨[], [], [], []⟩ (by simp) hwf]
    simp
  · rw [firstDedup_toFinset]
    simp
  · unfold parse_csv_data
    rw [parse_go_spec db rows ⟨[], [], [], []⟩ (by simp) hwf]
    simp [issueEvents]

/-- Witness for C8 on the sample body whose two data rows share one id. -/
theorem plugin_fetch_once_witness :
    (parse_csv_data dbSample rowsSample).map (fun p => p.1.fetches) =
        some (firstDedup [] (dataIds rowsSample))
    ∧ (firstDedup [] (dataIds rowsSample)).Nodup
    ∧ (firstDedup [] (dataIds rowsSample)).toFinset = (dataIds rowsSample).toFinset
    ∧ (parse_csv_data dbSample rowsSample).map (fun p => p.1.events) =
        some ((dataRows rowsSample).map
            (fun row => Event.reportIssue ((rowIssue dbSample row).getD default))
            ++ [Event.reportFinish]) :=
  plugin_fetch_once dbSample rowsSample (by decide)

/-- The status poll loop exits exactly when a `"completed"` answer occurs. -/
theorem status_poll_loop_done_iff (sid hid : Nat) :
    ∀ l : List String, (status_poll_loop sid hid l).2 = true ↔ "completed" ∈ l := by
  intro l
  induction l with
  | nil => simp [status_poll_loop]
  | cons s rest ih =>
    by_cases hs : s = "completed"
    · simp [status_poll_loop, hs]
    · simp [status_poll_loop, hs, ih]
      exact fun h => absurd h.symm hs

/-- The export poll loop exits exactly when a `"ready"` answer occurs. -/
theorem export_poll_loop_done_iff (sid fid : Nat) :
    ∀ l : List String, (export_poll_loop sid fid l).2 = true ↔ "ready" ∈ l := by
  intro l
  induction l with
  | nil => simp [export_poll_loop]
  | cons s rest ih =>
    by_cases hs : s = "ready"
    · simp [export_poll_loop, hs]
    · simp [export_poll_loop, hs, ih]
      exact fun h => absurd h.symm hs

/-- Every call the status poll loop makes is a status query or a sleep. -/
theorem status_poll_loop_calls (sid hid : Nat) :
    ∀ (l : List String) (c : Call), c ∈ (status_poll_loop sid hid l).1 →
      c = Call.statusQuery sid hid ∨ c = Call.sleepSecs 5 := by
  intro l
  induction l with
  | nil => intro c hc; simp [status_poll_loop] at hc
  | cons s rest ih =>
    intro c hc
    by_cases hs : s = "completed"
    · simp [status_poll_loop, hs] at hc
      exact Or.inl hc
    · simp [status_poll_loop, hs] at hc
      rcases hc with rfl | rfl | hc
      · exact Or.inl rfl
      · exact Or.inr rfl
      · exact ih c hc

/-- An export request in the run's trace implies the status answers included
`"completed"`. -/
theorem exportRequest_implies_completed (cfg : Config) (env : Env) (body : String)
    (a b : Nat) (hmem : Call.exportRequest a b ∈ (do_run cfg env body).1) :
    "completed" ∈ env.statuses := by
  unfold do_run at hmem
  split at hmem
  · simp at hmem
  · split at hmem
    · simp at hmem
    · rename_i history_id hh
      split at hmem
      · rename_i hsp
        simp only [List.mem_append] at hmem
        rcases hmem with hmem | hmem
        · simp at hmem
        · rcases status_poll_loop_calls env.scan_id history_id env.statuses _ hmem with
            hC | hC <;> simp at hC
      · rename_i hsp
        have hdone : (status_poll_loop env.scan_id history_id env.statuses).2 = true := by
          simpa using hsp
        exact (status_poll_loop_done_iff env.scan_id history_id env.statuses).mp hdone

/-- Claim C2: while any run that reaches the export step shows `"completed"`
among its status answers (the export request is issued only after a poll
returned `"completed"`), a status answer other than `"completed"` — e.g.
`"aborted"` or `"canceled"` — is never terminal: the loop queries, sleeps the
fixed 5 seconds, and continues exactly as on the remaining answers, and the
loop exits exactly when a `"completed"` answer occurs. -/
theorem poll_until_completed (cfg : Config) (env : Env) (body : String)
    (sid hid a b : Nat) (s : String) (rest l : List String)
    (hexp : Call.exportRequest a b ∈ (do_run cfg env body).1)
    (hs : s ≠ "completed") :
    "completed" ∈ env.statuses
    ∧ status_poll_loop sid hid (s :: rest) =
        (Call.statusQuery sid hid :: Call.sleepSecs 5 ::
          (status_poll_loop sid hid rest).1, (status_poll_loop sid hid rest).2)
    ∧ ((status_poll_loop sid hid l).2 = true ↔ "completed" ∈ l) := by
  refine ⟨exportRequest_implies_completed cfg env body a b hexp, ?_,
    status_poll_loop_done_iff sid hid l⟩
  simp [status_poll_loop, hs]

/-- Witness for C2: a run whose polls answer `"aborted"`, `"canceled"`,
`"completed"` does reach the export request, and the loop stays alive through
the non-`"completed"` answers. -/
theorem poll_until_completed_witness :
    "completed" ∈ envSample.statuses
    ∧ status_poll_loop 42 7 ("aborted" :: ["canceled", "completed"]) =
        (Call.statusQuery 42 7 :: Call.sleepSecs 5 ::
          (status_poll_loop 42 7 ["canceled", "completed"]).1,
         (status_poll_loop 42 7 ["canceled", "completed"]).2)
    ∧ ((status_poll_loop 42 7 ["aborted", "canceled", "completed"]).2 = true ↔
        "completed" ∈ ["aborted", "canceled", "completed"]) :=
  poll_until_completed cfgSample envSample "body" 42 7 42 7 "aborted"
    ["canceled", "completed"] ["aborted", "canceled", "completed"]
    (by decide) (by decide)

/-- Claim C5: a policy title carried by a catalog entry (unambiguously)
resolves to exactly that entry's uuid; and when the configured title is
absent from the catalog, `do_run` stops with the lookup `KeyError` right
after fetching the catalog — no scan is created, launched or polled. -/
theorem policy_resolution (cfg : Config) (env : Env) (body : String) (p : Policy)
    (hp : p ∈ env.templates)
    (huniq : ∀ q ∈ env.templates, q.title = p.title → q.uuid = p.uuid)
    (habs : ∀ q ∈ env.templates, q.title ≠ cfg.policy) :
    dictLookup (get_policies env.templates) p.title = some p.uuid
    ∧ do_run cfg env body =
        ([Call.login, Call.getPolicies], RunOutcome.keyError cfg.policy) := by
  constructor
  · apply dictLookup_of_mem
    · exact List.mem_map_of_mem _ hp
    · intro q hq hqt
      rcases List.mem_map.mp hq with ⟨t, ht, rfl⟩
      simpa using huniq t ht hqt
  · have hnone : dictLookup (get_policies env.templates) cfg.policy = none := by
      apply dictLookup_eq_none
      intro q hq
      rcases List.mem_map.mp hq with ⟨t, ht, rfl⟩
      simpa using habs t ht
    simp [do_run, hnone]

/-- Witness for C5: title `"B"` resolves to its uuid, and the run against the
catalog lacking the configured title `"A"` stops at the lookup error. -/
theorem policy_resolution_witness :
    dictLookup (get_policies envNoPolicy.templates) (Policy.mk "B" "u2").title =
      some (Policy.mk "B" "u2").uuid
    ∧ do_run cfgSample envNoPolicy "body" =
        ([Call.login, Call.getPolicies], RunOutcome.keyError cfgSample.policy) :=
  policy_resolution cfgSample envNoPolicy "body" ⟨"B", "u2"⟩
    (by decide) (by decide) (by decide)

/-- Claim C6: when the launch uuid matches a (unique) history entry, the
orchestrator resolves exactly that entry's history id and uses it for every
subsequent status query and for the export request, through to the download;
when no history entry carries the launch uuid, the run stops with the lookup
`KeyError` right after fetching the history — no status poll or export
follows. -/
theorem history_resolution (cfg : Config) (env env2 : Env) (body : String)
    (h : HistEntry) (pid pid2 : String)
    (hmem : h ∈ env.history)
    (huniq : ∀ g ∈ env.history, g.uuid = h.uuid → g.history_id = h.history_id)
    (huuid : h.uuid = env.scan_uuid)
    (hpid : dictLookup (get_policies env.templates) cfg.policy = some pid)
    (hstat : "completed" ∈ env.statuses)
    (hready : "ready" ∈ env.export_statuses)
    (hpid2 : dictLookup (get_policies env2.templates) cfg.policy = some pid2)
    (habs : ∀ g ∈ env2.history, g.uuid ≠ env2.scan_uuid) :
    dictLookup (get_history_ids env.history) env.scan_uuid = some h.history_id
    ∧ do_run cfg env body =
        ([Call.login, Call.getPolicies,
          Call.addScan cfg.scan_name cfg.scan_description cfg.target pid,
          Call.launchScan env.scan_id, Call.getHistory env.scan_id]
         ++ (status_poll_loop env.scan_id h.history_id env.statuses).1
         ++ [Call.exportRequest env.scan_id h.history_id]
         ++ (export_poll_loop env.scan_id env.file_id env.export_statuses).1
         ++ [Call.download env.scan_id env.file_id],
         RunOutcome.ok body)
    ∧ do_run cfg env2 body =
        ([Call.login, Call.getPolicies,
          Call.addScan cfg.scan_name cfg.scan_description cfg.target pid2,
          Call.launchScan env2.scan_id, Call.getHistory env2.scan_id],
         RunOutcome.keyError env2.scan_uuid) := by
  have hlook : dictLookup (get_history_ids env.history) env.scan_uuid =
      some h.history_id := by
    apply dictLookup_of_mem
    · rw [← huuid]
      exact List.mem_map_of_mem _ hmem
    · intro q hq hqk
      rcases List.mem_map.mp hq with ⟨g, hg, rfl⟩
      simp only at hqk ⊢
      exact huniq g hg (hqk.trans huuid.symm)
  refine ⟨hlook, ?_, ?_⟩
  · have hsp : (status_poll_loop env.scan_id h.history_id env.statuses).2 = true :=
      (status_poll_loop_done_iff _ _ _).mpr hstat
    have hep : (export_poll_loop env.scan_id env.file_id env.export_statuses).2 = true :=
      (export_poll_loop_done_iff _ _ _).mpr hready
    simp [do_run, hpid, hlook, hsp, hep]
  · have hnone : dictLookup (get_history_ids env2.history) env2.scan_uuid = none := by
      apply dictLookup_eq_none
      intro q hq
      rcases List.mem_map.mp hq with ⟨g, hg, rfl⟩
      simpa using habs g hg
    simp [do_run, hpid2, hnone]

/-- Witness for C6 on the sample environments: history id 7 resolves from
uuid `"run-1"` and drives the polls, export and download; the environment
whose history lacks `"run-1"` stops at the lookup error. -/
theorem history_resolution_witness :
    dictLookup (get_history_ids envSample.history) envSample.scan_uuid = some 7
    ∧ do_run cfgSample envSample "body" =
        ([Call.login, Call.getPolicies,
          Call.addScan cfgSample.scan_name cfgSample.scan_description cfgSample.target "u1",
          Call.launchScan envSample.scan_id, Call.getHistory envSample.scan_id]
         ++ (status_poll_loop envSample.scan_id 7 envSample.statuses).1
         ++ [Call.exportRequest envSample.scan_id 7]
         ++ (export_poll_loop envSample.scan_id envSample.file_id envSample.export_statuses).1
         ++ [Call.download envSample.scan_id envSample.file_id],
         RunOutcome.ok "body")
    ∧ do_run cfgSample envNoHistory "body" =
        ([Call.login, Call.getPolicies,
          Call.addScan cfgSample.scan_name cfgSample.scan_description cfgSample.target "u1",
          Call.launchScan envNoHistory.scan_id, Call.getHistory envNoHistory.scan_id],
         RunOutcome.keyError envNoHistory.scan_uuid) :=
  history_resolution cfgSample envSample envNoHistory "body" ⟨"run-1", 7⟩ "u1" "u1"
    (by decide) (by decide) rfl rfl (by decide) (by decide) rfl (by decide)
